import Mathlib

/-!
Shallow embedding of `src/assignment01.js` (a three.js solar-system scene).

JS numbers are modelled as real numbers `ℝ`; `Math.random()` draws are
modelled by an explicit stream `r : ℕ → ℝ` of values, consumed in the same
order as the script calls `Math.random()` (hypotheses state `0 ≤ r n < 1`
where a claim needs it).  Object references between bodies (a moon's
`orbitedBody` field) are modelled arena-style: the mutable global array
`celestialBodies` is a `List CelestialBody` and an orbiting body stores the
index of its reference body, so that reading `orbitedBody.px` during an
update reads the current list entry, exactly as the shared JS object
reference does.  Mesh and material state that the GUI callbacks mutate
(`body.visible`, `material.wireframe`) are carried as fields of the body.
-/

noncomputable section

namespace SolarSystem

/-- The `sceneProps` global controlled by the DAT.GUI widgets. -/
structure SceneProps where
  showBodyMovement : Bool
  planetSpeed : ℝ
  moonSpeed : ℝ
  numberOfStars : ℕ
deriving Inhabited

/-- `const NUM_STARS = 100`. -/
def NUM_STARS : ℕ := 100

/-- `const RANGE_X_Z = [-200, 200]`. -/
def RANGE_X_Z : List ℝ := [-200, 200]

/-- `const RANGE_Y = [-75, 75]`. -/
def RANGE_Y : List ℝ := [-75, 75]

/-- The initial value of the `sceneProps` global. -/
def initialSceneProps : SceneProps :=
  { showBodyMovement := true, planetSpeed := 5, moonSpeed := 5, numberOfStars := NUM_STARS }

/-- A `THREE.PointLight(color, intensity, distance, decay)` positioned at the
owning body's position; `visible` is the three.js object visibility flag
(initially `true`). -/
structure PointLight where
  color : ℕ
  intensity : ℝ
  lightDistance : ℝ
  decay : ℝ
  lx : ℝ
  ly : ℝ
  lz : ℝ
  visible : Bool
deriving Inhabited

/-- The fields that `OrbitingCelestialBody` adds on top of `CelestialBody`:
`orbitRadius`, the (index of the) orbited body, the normalised orbit time
`bodyOrbitTime / referenceOrbitTime`, the current `angle`, the per-frame base
step `delta = 2π/360` and the `isMoon` flag. -/
structure OrbitState where
  orbitRadius : ℝ
  orbitedIdx : ℕ
  bodyOrbitTime : ℝ
  angle : ℝ
  delta : ℝ
  isMoon : Bool

/-- A `CelestialBody` instance: constructor fields, plus the mesh visibility
flag, the material (its `emissive` colour and `wireframe` flag), the optional
point light, and — for `OrbitingCelestialBody` instances — the orbit fields. -/
structure CelestialBody where
  numberOfSegments : ℕ
  radius : ℝ
  color : ℕ
  px : ℝ
  py : ℝ
  pz : ℝ
  emitsLight : Bool
  isStar : Bool
  light : Option PointLight
  emissive : ℕ
  wireframe : Bool
  visible : Bool
  orbit : Option OrbitState

instance : Inhabited CelestialBody :=
  ⟨{ numberOfSegments := 0, radius := 0, color := 0, px := 0, py := 0, pz := 0,
     emitsLight := false, isStar := false, light := none, emissive := 0,
     wireframe := false, visible := true, orbit := none }⟩

/-- `new CelestialBody(radius, color, px, py, pz, emitsLight, isStar)` together
with the `createBody()` call it performs: a sphere mesh at `(px, py, pz)` with
a Lambert material (emissive colour when `emitsLight`), and a
`PointLight(0xffffff, 1, isStar ? 100 : 0, isStar ? 5 : 2)` when `emitsLight`. -/
def CelestialBody.create (radius : ℝ) (color : ℕ) (px py pz : ℝ)
    (emitsLight isStar : Bool) : CelestialBody :=
  { numberOfSegments := 25
    radius := radius
    color := color
    px := px
    py := py
    pz := pz
    emitsLight := emitsLight
    isStar := isStar
    light :=
      if emitsLight then
        some { color := 0xffffff, intensity := 1,
               lightDistance := if isStar then 100 else 0,
               decay := if isStar then 5 else 2,
               lx := px, ly := py, lz := pz, visible := true }
      else none
    emissive := if emitsLight then color else 0
    wireframe := false
    visible := true
    orbit := none }

/-- `new OrbitingCelestialBody(radius, color, orbitRadius, orbitedBody,
referenceOrbitTime, bodyOrbitTime, isMoon)`.  The `super` call passes
`emitsLight = false` (the seventh `isStar` argument is left `undefined`,
which is falsy, hence `false` here).  `rY` is the `Math.random()` draw used
for a moon's y offset, `rSign` the draw for `signal`, `rAngle` the draw for a
moon's initial angle; `orbitedIdx` is the index of `orbitedBody` in the
`celestialBodies` array. -/
def OrbitingCelestialBody.create (radius : ℝ) (color : ℕ) (orbitRadius : ℝ)
    (orbitedBody : CelestialBody) (orbitedIdx : ℕ)
    (referenceOrbitTime bodyOrbitTime : ℝ) ( isMoon : Bool)
    (rY rSign rAngle : ℝ) : CelestialBody :=
  { CelestialBody.create radius color
      (orbitRadius + orbitedBody.px)
      (if isMoon then (-0.5 + rY) * orbitedBody.radius + 2 * radius + 0.1 else 0)
      (orbitRadius + orbitedBody.pz)
      false false with
    orbit := some
      { orbitRadius := orbitRadius
        orbitedIdx := orbitedIdx
        bodyOrbitTime := bodyOrbitTime / referenceOrbitTime
        angle := if isMoon then 2 * Real.pi * (if rSign < 0.5 then -1 else 1) * rAngle else 0
        delta := 2 * Real.pi / 360
        isMoon := isMoon } }

/-! Body indexes and moon counts (lines 143-162 of the source). -/

def SUN_IDX : ℕ := 0
def MERCURY_IDX : ℕ := 1
def VENUS_IDX : ℕ := 2
def EARTH_IDX : ℕ := 3
def MARS_IDX : ℕ := 4
def JUPITER_IDX : ℕ := 5
def SATURN_IDX : ℕ := 6
def URANUS_IDX : ℕ := 7
def NEPTUNE_IDX : ℕ := 8
def PLUTO_IDX : ℕ := 9
def EARTH_MOON_IDX : ℕ := 10
def JUPITER_MOONS_IDX : ℕ := 11
def SATURN_MOONS_IDX : ℕ := 16

def EARTH_NUM_MOONS : ℕ := 1
def JUPITER_NUM_MOONS : ℕ := 5
def SATURN_NUM_MOONS : ℕ := 3

/-! Radius and distance correction proportions (lines 168-181). -/

def SUN_PROP : ℝ := 15
def MED_PLAN_PROP : ℝ := 70
def BIG_PLAN_PROP : ℝ := 40
def SML_PLAN_PROP : ℝ := 150
def DWF_PLAN_PROP : ℝ := 300

def SML_DIST_PROP : ℝ := 1.75
def MED_DIST_PROP : ℝ := 2.75
def BIG_DIST_PROP : ℝ := 4.25
def VBI_DIST_PROP : ℝ := 5.25

/-! Scaled radii (lines 186-198). -/

def baseRadius : ℝ := 695508
def sunRadius : ℝ := SUN_PROP * 695508 / baseRadius
def mercuryRadius : ℝ := SML_PLAN_PROP * 2440 / baseRadius
def venusRadius : ℝ := SML_PLAN_PROP * 6052 / baseRadius
def earthRadius : ℝ := SML_PLAN_PROP * 6371 / baseRadius
def marsRadius : ℝ := SML_PLAN_PROP * 3397 / baseRadius
def jupiterRadius : ℝ := BIG_PLAN_PROP * 71492 / baseRadius
def saturnRadius : ℝ := BIG_PLAN_PROP * 60268 / baseRadius
def uranusRadius : ℝ := MED_PLAN_PROP * 25559 / baseRadius
def neptuneRadius : ℝ := MED_PLAN_PROP * 24766 / baseRadius
def plutoRadius : ℝ := DWF_PLAN_PROP * 1185 / baseRadius
def moonRadius : ℝ := plutoRadius / 1.25
def starRadius : ℝ := 0.1

/-! Scaled distances (lines 204-217); `jupterDist` keeps the source's name. -/

def propDist : ℝ := SUN_PROP + 2.5
def baseDist : ℝ := 57900
def mercuryDist : ℝ := propDist * 57900 / baseDist
def venusDist : ℝ := propDist * 108160 / baseDist / 1.5
def earthDist : ℝ := propDist * 149600 / baseDist / 1.5
def marsDist : ℝ := propDist * 227937 / baseDist / 1.75
def jupterDist : ℝ := propDist * 778369 / baseDist / 3.5
def saturnDist : ℝ := propDist * 1427034 / baseDist / 4.5
def uranusDist : ℝ := propDist * 2870658 / baseDist / 6.25
def neptuneDist : ℝ := propDist * 4496976 / baseDist / 7.5
def plutoDist : ℝ := propDist * 5906375 / baseDist / 8.25
def earthMoonDist : ℝ := earthRadius + 1
def jupiterMoonDist : ℝ := jupiterRadius + 1
def saturnMoonDist : ℝ := saturnRadius + 1

/-! Orbit times in days (lines 223-234). -/

def mercuryTime : ℝ := 88
def venusTime : ℝ := 224
def earthTime : ℝ := 365.25
def marsTime : ℝ := 687
def jupiterTime : ℝ := 4332
def saturnTime : ℝ := 10592
def uranusTime : ℝ := 30681
def neptuneTime : ℝ := 60193
def plutoTime : ℝ := 90582
def earthMoonTime : ℝ := 28
def jupiterMoonTime : ℝ := 125
def saturnMoonTime : ℝ := 78

/-!
The scene builder `createGeometry()`.  The `Math.random()` stream `r` is
consumed in source execution order: the star loop draws `r 0 .. r 299`
(three per star), each planet constructor draws one value for its unused
`signal` (`r 300 .. r 308`), the Earth moon draws `r 309 .. r 311`
(y offset, signal, initial angle), each Jupiter moon draws five values
starting at `r (312 + 5*i)` (orbit jitter, period jitter, y offset, signal,
initial angle) and each Saturn moon five values starting at `r (337 + 5*i)`.
-/

/-- One iteration of the star loop (lines 276-281). -/
def mkStar (r : ℕ → ℝ) (i : ℕ) : CelestialBody :=
  CelestialBody.create starRadius 0xffffff
    (RANGE_X_Z.getD (i % 2) 0 * ((-0.5 + r (3 * i)) * 2) + 5)
    (RANGE_Y.getD (i % 2) 0 * ((-0.5 + r (3 * i + 1)) * 2) + 5)
    (RANGE_X_Z.getD (i % 2) 0 * ((-0.5 + r (3 * i + 2)) * 2) + 5)
    true true

/-- The `stars` array built by the star loop: the bound is the constant
`NUM_STARS`, not `props.numberOfStars` (the props argument records the
state of `sceneProps` when `createGeometry` runs; the loop never reads it). -/
def createStars (_props : SceneProps) (r : ℕ → ℝ) : List CelestialBody :=
  (List.range NUM_STARS).map (mkStar r)

/-- The Sun (line 284). -/
def sun : CelestialBody :=
  CelestialBody.create sunRadius 0xf9d71c 0 0 0 true false

/-- Lines 287-295: the nine planets, all orbiting `celestialBodies[SUN_IDX]`.
Each constructor call consumes one unused `signal` draw. -/
def mercury (r : ℕ → ℝ) : CelestialBody :=
  OrbitingCelestialBody.create mercuryRadius 0xC5C5C5 mercuryDist sun SUN_IDX
    mercuryTime mercuryTime false 0 (r 300) 0

def venus (r : ℕ → ℝ) : CelestialBody :=
  OrbitingCelestialBody.create venusRadius 0xFFFACD venusDist sun SUN_IDX
    mercuryTime venusTime false 0 (r 301) 0

def earth (r : ℕ → ℝ) : CelestialBody :=
  OrbitingCelestialBody.create earthRadius 0x1E90FF earthDist sun SUN_IDX
    mercuryTime earthTime false 0 (r 302) 0

def mars (r : ℕ → ℝ) : CelestialBody :=
  OrbitingCelestialBody.create marsRadius 0xD2B48C marsDist sun SUN_IDX
    mercuryTime marsTime false 0 (r 303) 0

def jupiter (r : ℕ → ℝ) : CelestialBody :=
  OrbitingCelestialBody.create jupiterRadius 0xFFA500 jupterDist sun SUN_IDX
    mercuryTime jupiterTime false 0 (r 304) 0

def saturn (r : ℕ → ℝ) : CelestialBody :=
  OrbitingCelestialBody.create saturnRadius 0xF0E68C saturnDist sun SUN_IDX
    mercuryTime saturnTime false 0 (r 305) 0

def uranus (r : ℕ → ℝ) : CelestialBody :=
  OrbitingCelestialBody.create uranusRadius 0xADD8E6 uranusDist sun SUN_IDX
    mercuryTime uranusTime false 0 (r 306) 0

def neptune (r : ℕ → ℝ) : CelestialBody :=
  OrbitingCelestialBody.create neptuneRadius 0xFFA500 neptuneDist sun SUN_IDX
    mercuryTime neptuneTime false 0 (r 307) 0

def pluto (r : ℕ → ℝ) : CelestialBody :=
  OrbitingCelestialBody.create plutoRadius 0xFFEBCD plutoDist sun SUN_IDX
    mercuryTime plutoTime false 0 (r 308) 0

/-- Lines 298-301: the Earth moon orbits `celestialBodies[EARTH_IDX]`, with
plain `earthMoonDist` and `earthMoonTime` (no jitter on either). -/
def earthMoon (r : ℕ → ℝ) : CelestialBody :=
  OrbitingCelestialBody.create moonRadius 0xC5C5C5 earthMoonDist (earth r) EARTH_IDX
    mercuryTime earthMoonTime true (r 309) (r 310) (r 311)

/-- Lines 304-307: Jupiter moon number `i` (0 ≤ i < 5), with orbit jitter
`+ Math.random() * 0.75` and period factor `* (Math.random() + 0.75)`. -/
def jupiterMoon (r : ℕ → ℝ) (i : ℕ) : CelestialBody :=
  OrbitingCelestialBody.create moonRadius 0xC5C5C5
    (jupiterMoonDist + r (312 + 5 * i) * 0.75) (jupiter r) JUPITER_IDX
    mercuryTime (jupiterMoonTime * (r (312 + 5 * i + 1) + 0.75)) true
    (r (312 + 5 * i + 2)) (r (312 + 5 * i + 3)) (r (312 + 5 * i + 4))

/-- Lines 310-313: Saturn moon number `i` (0 ≤ i < 3). -/
def saturnMoon (r : ℕ → ℝ) (i : ℕ) : CelestialBody :=
  OrbitingCelestialBody.create moonRadius 0xC5C5C5
    (saturnMoonDist + r (337 + 5 * i) * 0.75) (saturn r) SATURN_IDX
    mercuryTime (saturnMoonTime * (r (337 + 5 * i + 1) + 0.75)) true
    (r (337 + 5 * i + 2)) (r (337 + 5 * i + 3)) (r (337 + 5 * i + 4))

/-- The `celestialBodies` array in push order: sun, nine planets, Earth moon,
five Jupiter moons, three Saturn moons. -/
def solarBodies (r : ℕ → ℝ) : List CelestialBody :=
  [sun, mercury r, venus r, earth r, mars r, jupiter r, saturn r, uranus r,
   neptune r, pluto r, earthMoon r,
   jupiterMoon r 0, jupiterMoon r 1, jupiterMoon r 2, jupiterMoon r 3, jupiterMoon r 4,
   saturnMoon r 0, saturnMoon r 1, saturnMoon r 2]

/-- The two global body collections populated by `createGeometry()`. -/
structure SceneState where
  celestialBodies : List CelestialBody
  stars : List CelestialBody

/-- `createGeometry()`: populates `stars` and `celestialBodies`. -/
def buildScene (props : SceneProps) (r : ℕ → ℝ) : SceneState :=
  { celestialBodies := solarBodies r, stars := createStars props r }

/-!  The DAT.GUI callbacks (lines 335-416).  -/

/-- `celestialBodies[i].body.visible = v` on a body list. -/
def setVisibleAt (bodies : List CelestialBody) (i : ℕ) (v : Bool) : List CelestialBody :=
  bodies.set i { bodies.getD i default with visible := v }

/-- The `Show Jupiter` callback (lines 380-385): sets Jupiter's mesh
visibility and then loops `i = JUPITER_MOONS_IDX` to
`JUPITER_MOONS_IDX + JUPITER_NUM_MOONS - 1` over the moons. -/
def showJupiterCallback (v : Bool) (bodies : List CelestialBody) : List CelestialBody :=
  (List.range' JUPITER_MOONS_IDX JUPITER_NUM_MOONS).foldl
    (fun bs i => setVisibleAt bs i v)
    (setVisibleAt bodies JUPITER_IDX v)

/-- The `Wireframe` callback (lines 411-415): `for (body of celestialBodies)
body.material.wireframe = wireframe` — it iterates over `celestialBodies`
only; the `stars` array is not touched. -/
def wireframeCallback (w : Bool) (st : SceneState) : SceneState :=
  { st with celestialBodies := st.celestialBodies.map fun b => { b with wireframe := w } }

/-!  The per-frame position update (lines 132-137 and 426-430).  -/

/-- The new phase angle computed by `updatePosition()`:
`angle + delta / bodyOrbitTime * (isMoon ? moonSpeed : planetSpeed)`. -/
def newAngle (props : SceneProps) (o : OrbitState) : ℝ :=
  o.angle + o.delta / o.bodyOrbitTime * (if o.isMoon then props.moonSpeed else props.planetSpeed)

/-- `celestialBodies[i].updatePosition()` as an operation on the body list:
advance the angle, then recompute `px`/`pz` from the orbited body's current
position.  On a body without orbit fields (`render` never calls it on one)
this is the identity. -/
def updatePositionAt (props : SceneProps) (bodies : List CelestialBody) (i : ℕ) :
    List CelestialBody :=
  ((bodies.getD i default).orbit).elim bodies fun o =>
    bodies.set i
      { bodies.getD i default with
        px := Real.cos (newAngle props o) * o.orbitRadius + (bodies.getD o.orbitedIdx default).px
        pz := Real.sin (newAngle props o) * o.orbitRadius + (bodies.getD o.orbitedIdx default).pz
        orbit := some { o with angle := newAngle props o } }

/-- `updatePositionAt` applied at indices `1, 2, …, k` in that order. -/
def updRange (props : SceneProps) (bodies : List CelestialBody) : ℕ → List CelestialBody
  | 0 => bodies
  | k + 1 => updatePositionAt props (updRange props bodies k) (k + 1)

/-- The update loop of `render()` (lines 427-429):
`for (let i = 1; i < celestialBodies.length; i++) celestialBodies[i].updatePosition()`. -/
def frame (props : SceneProps) (bodies : List CelestialBody) : List CelestialBody :=
  updRange props bodies (bodies.length - 1)

/-- One `render()` call's effect on the body collections: the update loop
runs only when `sceneProps.showBodyMovement` is set; stars never move. -/
def renderStep (props : SceneProps) (st : SceneState) : SceneState :=
  { st with celestialBodies :=
      if props.showBodyMovement then frame props st.celestialBodies else st.celestialBodies }

/-!  Observation helpers used in the theorem statements.  -/

/-- The phase angle of a body (0 for a non-orbiting body). -/
def orbitAngle (b : CelestialBody) : ℝ :=
  b.orbit.elim 0 OrbitState.angle

/-- Euclidean distance of two bodies' positions in the x-z (orbital) plane. -/
def distXZ (a b : CelestialBody) : ℝ :=
  Real.sqrt ((a.px - b.px) ^ 2 + (a.pz - b.pz) ^ 2)

/-- Full three-dimensional Euclidean distance of two bodies' positions. -/
def dist3d (a b : CelestialBody) : ℝ :=
  Real.sqrt ((a.px - b.px) ^ 2 + (a.py - b.py) ^ 2 + (a.pz - b.pz) ^ 2)

/-- The un-jittered base orbit distance of the moon at index `i` of
`celestialBodies` (statement-side vocabulary for claim C9). -/
def moonBaseDistAt (i : ℕ) : ℝ :=
  if i ≤ EARTH_MOON_IDX then earthMoonDist
  else if i < SATURN_MOONS_IDX then jupiterMoonDist
  else saturnMoonDist

/-- The un-jittered base orbit time of the moon at index `i` of
`celestialBodies` (statement-side vocabulary for claim C9). -/
def moonBaseTimeAt (i : ℕ) : ℝ :=
  if i ≤ EARTH_MOON_IDX then earthMoonTime
  else if i < SATURN_MOONS_IDX then jupiterMoonTime
  else saturnMoonTime

/-!  Concrete sample inputs used by the witness and counterexample theorems.  -/

/-- A non-moon `OrbitingCelestialBody(1, 0xC5C5C5, 10, sun, 88, 88, false)`
around the sun at the origin: the claim-C1 scenario with orbit radius `D = 10`. -/
def c1Planet : CelestialBody :=
  OrbitingCelestialBody.create 1 0xC5C5C5 10 sun SUN_IDX 88 88 false 0 0 0

/-- A two-body arena: the sun and a non-moon with orbit radius 3. -/
def c3PlanetBodies : List CelestialBody :=
  [sun, OrbitingCelestialBody.create 1 0xC5C5C5 3 sun SUN_IDX 88 88 false 0 0 0]

/-- The orbit fields of the non-moon in `c3PlanetBodies`. -/
def c3po : OrbitState :=
  { orbitRadius := 3, orbitedIdx := SUN_IDX, bodyOrbitTime := (88 : ℝ) / 88,
    angle := 0, delta := 2 * Real.pi / 360, isMoon := false }

/-- A two-body arena: the sun and a moon with orbit radius 3 whose random
y-offset draw is 0.5 (so `py = 2.1 ≠ 0`). -/
def c3MoonBodies : List CelestialBody :=
  [sun, OrbitingCelestialBody.create 1 0xC5C5C5 3 sun SUN_IDX 1 1 true 0.5 0.6 0]

/-- The orbit fields of the moon in `c3MoonBodies`. -/
def c3mo : OrbitState :=
  { orbitRadius := 3, orbitedIdx := SUN_IDX, bodyOrbitTime := (1 : ℝ) / 1,
    angle := (2 * Real.pi * if (0.6 : ℝ) < 0.5 then -1 else 1) * 0,
    delta := 2 * Real.pi / 360, isMoon := true }

/-- A two-body arena: the sun and a non-moon, for the claim-C4 witness. -/
def c4Bodies : List CelestialBody :=
  [sun, OrbitingCelestialBody.create 1 0xFFA500 4 sun SUN_IDX 88 687 false 0 0 0]

/-- The orbit fields of the non-moon in `c4Bodies`. -/
def c4o : OrbitState :=
  { orbitRadius := 4, orbitedIdx := SUN_IDX, bodyOrbitTime := (687 : ℝ) / 88,
    angle := 0, delta := 2 * Real.pi / 360, isMoon := false }

/-- `sceneProps` with movement disabled, for the claim-C5 witness. -/
def frozenSceneProps : SceneProps :=
  { showBodyMovement := false, planetSpeed := 5, moonSpeed := 5, numberOfStars := NUM_STARS }

/-- `sceneProps` with `numberOfStars` set to 0, for claim C2. -/
def zeroStarsProps : SceneProps :=
  { showBodyMovement := true, planetSpeed := 5, moonSpeed := 5, numberOfStars := 0 }

/-- The all-zeros random stream. -/
def zeroRandom : ℕ → ℝ := fun _ => 0

/-- The constant-0.999 random stream, used to place a star outside the
`[-200, 200] × [-75, 75]` box. -/
def highRandom : ℕ → ℝ := fun _ => 0.999

/-- The orbit fields of the Earth moon built from the all-zeros stream. -/
def c7o : OrbitState :=
  { orbitRadius := earthMoonDist, orbitedIdx := EARTH_IDX,
    bodyOrbitTime := earthMoonTime / mercuryTime,
    angle := (2 * Real.pi * if (0 : ℝ) < 0.5 then -1 else 1) * 0,
    delta := 2 * Real.pi / 360, isMoon := true }

/-- The orbit fields of Jupiter moon 0 built from the all-zeros stream. -/
def c9o : OrbitState :=
  { orbitRadius := jupiterMoonDist + 0 * 0.75, orbitedIdx := JUPITER_IDX,
    bodyOrbitTime := jupiterMoonTime * (0 + 0.75) / mercuryTime,
    angle := (2 * Real.pi * if (0 : ℝ) < 0.5 then -1 else 1) * 0,
    delta := 2 * Real.pi / 360, isMoon := true }

/-!  Helper lemmas about list updates and the frame loop.  -/

/-- `List.set` at one index leaves every other index unchanged. -/
theorem getD_set_of_ne {α : Type _} (l : List α) (i j : ℕ) (a d : α) (h : i ≠ j) :
    (l.set i a).getD j d = l.getD j d := by
  induction l generalizing i j with
  | nil => simp
  | cons x xs ih =>
    cases i with
    | zero =>
      cases j with
      | zero => exact absurd rfl h
      | succ j => simp
    | succ i =>
      cases j with
      | zero => simp
      | succ j =>
        simp only [List.set_cons_succ, List.getD_cons_succ]
        exact ih i j (by omega)

/-- `List.set` writes the given value at an in-bounds index. -/
theorem getD_set_self {α : Type _} (l : List α) (i : ℕ) (a d : α) (h : i < l.length) :
    (l.set i a).getD i d = a := by
  induction l generalizing i with
  | nil => simp at h
  | cons x xs ih =>
    cases i with
    | zero => simp
    | succ i =>
      simp only [List.set_cons_succ, List.getD_cons_succ]
      exact ih i (by simpa using h)

theorem length_updatePositionAt (props : SceneProps) (bodies : List CelestialBody) (i : ℕ) :
    (updatePositionAt props bodies i).length = bodies.length := by
  unfold updatePositionAt
  cases h : (bodies.getD i default).orbit <;> simp [h, Option.elim]

theorem updatePositionAt_getD_ne (props : SceneProps) (bodies : List CelestialBody)
    (i j : ℕ) (h : i ≠ j) :
    (updatePositionAt props bodies i).getD j default = bodies.getD j default := by
  unfold updatePositionAt
  cases horb : (bodies.getD i default).orbit with
  | none => rfl
  | some o => exact getD_set_of_ne _ i j _ _ h

/-- `updatePosition()` on a body with orbit fields, as one record equation. -/
theorem updatePositionAt_getD_self (props : SceneProps) (bodies : List CelestialBody)
    (i : ℕ) (o : OrbitState) (ho : (bodies.getD i default).orbit = some o)
    (hi : i < bodies.length) :
    (updatePositionAt props bodies i).getD i default =
      { bodies.getD i default with
        px := Real.cos (newAngle props o) * o.orbitRadius + (bodies.getD o.orbitedIdx default).px
        pz := Real.sin (newAngle props o) * o.orbitRadius + (bodies.getD o.orbitedIdx default).pz
        orbit := some { o with angle := newAngle props o } } := by
  unfold updatePositionAt
  rw [ho]
  simp only [Option.elim]
  exact getD_set_self _ _ _ _ hi

theorem length_updRange (props : SceneProps) (bodies : List CelestialBody) (k : ℕ) :
    (updRange props bodies k).length = bodies.length := by
  induction k with
  | zero => rfl
  | succ k ih => rw [updRange, length_updatePositionAt, ih]

/-- Indices above `k` are untouched by the first `k` update steps. -/
theorem updRange_getD_above (props : SceneProps) (bodies : List CelestialBody)
    (k j : ℕ) (h : k < j) :
    (updRange props bodies k).getD j default = bodies.getD j default := by
  induction k with
  | zero => rfl
  | succ k ih =>
    rw [updRange, updatePositionAt_getD_ne _ _ _ _ (by omega)]
    exact ih (by omega)

/-- Index `j` reaches its final value at step `j` and stays fixed after. -/
theorem updRange_getD_stable (props : SceneProps) (bodies : List CelestialBody)
    (k j : ℕ) (h : j ≤ k) :
    (updRange props bodies k).getD j default = (updRange props bodies j).getD j default := by
  induction k with
  | zero =>
    have : j = 0 := by omega
    subst this
    rfl
  | succ k ih =>
    rcases Nat.eq_or_lt_of_le h with rfl | hlt
    · rfl
    · rw [updRange, updatePositionAt_getD_ne _ _ _ _ (by omega)]
      exact ih (by omega)

/-- After one full `render()` update loop, every orbiting body whose reference
body sits at a smaller index satisfies the circular-orbit relation against its
reference body's position of the SAME frame. -/
theorem frame_orbit_inv (props : SceneProps) (bodies : List CelestialBody)
    (i : ℕ) (o : OrbitState)
    (h1 : 1 ≤ i) (hlen : i < bodies.length)
    (ho : (bodies.getD i default).orbit = some o) (hp : o.orbitedIdx < i) :
    ((frame props bodies).getD i default).px =
        Real.cos (newAngle props o) * o.orbitRadius +
        ((frame props bodies).getD o.orbitedIdx default).px ∧
    ((frame props bodies).getD i default).pz =
        Real.sin (newAngle props o) * o.orbitRadius +
        ((frame props bodies).getD o.orbitedIdx default).pz ∧
    ((frame props bodies).getD i default).orbit = some { o with angle := newAngle props o } := by
  obtain ⟨m, rfl⟩ : ∃ m, i = m + 1 := ⟨i - 1, by omega⟩
  set n := bodies.length with hn
  set p := o.orbitedIdx with hpidx
  have hfr : frame props bodies = updRange props bodies (n - 1) := rfl
  have hparent : (updRange props bodies m).getD p default
      = (frame props bodies).getD p default := by
    rw [hfr, updRange_getD_stable _ _ m p (by omega),
      updRange_getD_stable _ _ (n - 1) p (by omega)]
  have hself : (updRange props bodies m).getD (m + 1) default = bodies.getD (m + 1) default :=
    updRange_getD_above _ _ m (m + 1) (by omega)
  have hfin : (frame props bodies).getD (m + 1) default
      = (updRange props bodies (m + 1)).getD (m + 1) default := by
    rw [hfr]
    exact updRange_getD_stable _ _ (n - 1) (m + 1) (by omega)
  have horbB : ((updRange props bodies m).getD (m + 1) default).orbit = some o := by
    rw [hself]; exact ho
  have hstep : (updRange props bodies (m + 1)).getD (m + 1) default =
      { (updRange props bodies m).getD (m + 1) default with
        px := Real.cos (newAngle props o) * o.orbitRadius +
              ((updRange props bodies m).getD p default).px
        pz := Real.sin (newAngle props o) * o.orbitRadius +
              ((updRange props bodies m).getD p default).pz
        orbit := some { o with angle := newAngle props o } } := by
    show (updatePositionAt props (updRange props bodies m) (m + 1)).getD (m + 1) default = _
    exact updatePositionAt_getD_self _ _ _ _ horbB (by rw [length_updRange]; omega)
  rw [hfin, hstep, hparent]
  exact ⟨rfl, rfl, rfl⟩

/-- In the built scene, every orbiting body's reference body sits at a
strictly smaller (hence earlier-updated) index. -/
theorem solar_orbit_parent (r : ℕ → ℝ) (i : ℕ) (o : OrbitState)
    (ho : ((solarBodies r).getD i default).orbit = some o) :
    1 ≤ i ∧ i < (solarBodies r).length ∧ o.orbitedIdx < i := by
  have hlen : (solarBodies r).length = 19 := rfl
  by_cases h19 : i < 19
  · interval_cases i
    · exact absurd ho (fun h => Option.noConfusion h)
    all_goals refine ⟨by omega, by omega, ?_⟩
    all_goals rw [← Option.some.inj ho]
    all_goals norm_num [SUN_IDX, EARTH_IDX, JUPITER_IDX, SATURN_IDX]
  · rw [List.getD_eq_default _ _ (by omega : (solarBodies r).length ≤ i)] at ho
    exact absurd ho (fun h => Option.noConfusion h)

end SolarSystem

namespace SolarSystem

/-- Claim C1 (code_bug evaluation): a non-moon with orbit radius 10 around
the sun at the origin is constructed at position (10, 0, 10) — the z
coordinate is `orbitRadius + sun.pz = 10`, not the claimed 0. -/
theorem claim1_constructor_initial_position :
    c1Planet.px = 10 ∧ c1Planet.py = 0 ∧ c1Planet.pz = 10 ∧ c1Planet.pz ≠ 0 := by
  refine ⟨?_, ?_, ?_, ?_⟩ <;>
    simp [c1Planet, OrbitingCelestialBody.create, CelestialBody.create, sun]

/-- Claim C4: for every non-moon orbiting body in a fixed state, the
phase-angle increment of one update is linear in the planet speed
multiplier: with Planets Speed 25 the increment is exactly 5 times the
increment with Planets Speed 5, all other state equal. -/
theorem claim4_speed_scaling (props : SceneProps) (bodies : List CelestialBody)
    (i : ℕ) (o : OrbitState)
    (ho : (bodies.getD i default).orbit = some o)
    (hm : o.isMoon = false)
    (hi : i < bodies.length) :
    orbitAngle ((updatePositionAt { props with planetSpeed := 25 } bodies i).getD i default)
        - o.angle =
      5 * (orbitAngle ((updatePositionAt { props with planetSpeed := 5 } bodies i).getD i default)
        - o.angle) := by
  rw [updatePositionAt_getD_self _ _ _ _ ho hi, updatePositionAt_getD_self _ _ _ _ ho hi]
  simp only [orbitAngle, Option.elim, newAngle, hm, if_false, Bool.false_eq_true]
  ring

theorem claim4_witness :
    orbitAngle ((updatePositionAt { initialSceneProps with planetSpeed := 25 } c4Bodies 1).getD 1 default)
        - c4o.angle =
      5 * (orbitAngle ((updatePositionAt { initialSceneProps with planetSpeed := 5 } c4Bodies 1).getD 1 default)
        - c4o.angle) :=
  claim4_speed_scaling initialSceneProps c4Bodies 1 c4o rfl rfl (by norm_num [c4Bodies])

/-- Claim C5: when `sceneProps.showBodyMovement` is false, the whole body
state (in particular every position) is unchanged by any number of
consecutive render-loop frames. -/
theorem claim5_movement_freeze (props : SceneProps) (st : SceneState) (n : ℕ)
    (h : props.showBodyMovement = false) :
    (renderStep props)^[n] st = st := by
  apply Function.iterate_fixed
  unfold renderStep
  rw [h]
  simp

theorem claim5_witness :
    (renderStep frozenSceneProps)^[5] (buildScene initialSceneProps zeroRandom)
      = buildScene initialSceneProps zeroRandom :=
  claim5_movement_freeze frozenSceneProps (buildScene initialSceneProps zeroRandom) 5 rfl

/-- Claim C3 (amended): after one `updatePosition()` call, the distance IN
THE X-Z (ORBITAL) PLANE between an orbiting body and its reference body
equals its `orbitRadius` exactly, for every value of the speed multipliers.
(The full 3-dimensional distance also includes the body's fixed y offset and
is therefore larger for moons — see the counterexample.) -/
theorem claim3_amended (props : SceneProps) (bodies : List CelestialBody) (i : ℕ) (o : OrbitState)
    (ho : (bodies.getD i default).orbit = some o)
    (hi : i < bodies.length)
    (hne : o.orbitedIdx ≠ i)
    (hR : 0 ≤ o.orbitRadius) :
    distXZ ((updatePositionAt props bodies i).getD i default)
      ((updatePositionAt props bodies i).getD o.orbitedIdx default) = o.orbitRadius := by
  rw [updatePositionAt_getD_self _ _ _ _ ho hi,
    updatePositionAt_getD_ne _ _ _ _ (Ne.symm hne)]
  show Real.sqrt
      ((Real.cos (newAngle props o) * o.orbitRadius + (bodies.getD o.orbitedIdx default).px
          - (bodies.getD o.orbitedIdx default).px) ^ 2 +
        (Real.sin (newAngle props o) * o.orbitRadius + (bodies.getD o.orbitedIdx default).pz
          - (bodies.getD o.orbitedIdx default).pz) ^ 2) = o.orbitRadius
  have h := Real.sin_sq_add_cos_sq (newAngle props o)
  have hID : (Real.cos (newAngle props o) * o.orbitRadius + (bodies.getD o.orbitedIdx default).px
          - (bodies.getD o.orbitedIdx default).px) ^ 2 +
        (Real.sin (newAngle props o) * o.orbitRadius + (bodies.getD o.orbitedIdx default).pz
          - (bodies.getD o.orbitedIdx default).pz) ^ 2 = o.orbitRadius ^ 2 := by
    linear_combination o.orbitRadius ^ 2 * h
  rw [hID]
  exact Real.sqrt_sq hR

theorem claim3_witness :
    distXZ ((updatePositionAt initialSceneProps c3PlanetBodies 1).getD 1 default)
      ((updatePositionAt initialSceneProps c3PlanetBodies 1).getD SUN_IDX default) = 3 :=
  claim3_amended initialSceneProps c3PlanetBodies 1 c3po rfl (by norm_num [c3PlanetBodies])
    (by norm_num [c3po, SUN_IDX]) (by norm_num [c3po])

/-- Claim C3 counterexample: a moon with orbit radius 3 and random y-offset
draw 0.5 sits at height `py = 2.1` above the orbital plane of the sun, so
after one update its 3-dimensional distance to the reference body is
`√(3² + 2.1²) = √13.41 ≠ 3`: the claimed equality fails for 3-d distance. -/
theorem claim3_counterexample :
    (c3MoonBodies.getD 1 default).orbit.map OrbitState.orbitRadius = some 3 ∧
    dist3d ((updatePositionAt initialSceneProps c3MoonBodies 1).getD 1 default)
      ((updatePositionAt initialSceneProps c3MoonBodies 1).getD 0 default) ≠ 3 := by
  refine ⟨rfl, ?_⟩
  show Real.sqrt
      ((Real.cos (newAngle initialSceneProps c3mo) * 3 + 0 - 0) ^ 2 +
        ((-0.5 + 0.5) * sunRadius + 2 * 1 + 0.1 - 0) ^ 2 +
        (Real.sin (newAngle initialSceneProps c3mo) * 3 + 0 - 0) ^ 2) ≠ 3
  have h := Real.sin_sq_add_cos_sq (newAngle initialSceneProps c3mo)
  have hID : (Real.cos (newAngle initialSceneProps c3mo) * 3 + 0 - 0) ^ 2 +
        ((-0.5 + 0.5) * sunRadius + 2 * 1 + 0.1 - 0) ^ 2 +
        (Real.sin (newAngle initialSceneProps c3mo) * 3 + 0 - 0) ^ 2 = 13.41 := by
    linear_combination (9 : ℝ) * h
  rw [hID]
  intro hEq
  have h2 : Real.sqrt 13.41 ^ 2 = 13.41 := Real.sq_sqrt (by norm_num)
  rw [hEq] at h2
  norm_num at h2

end SolarSystem

namespace SolarSystem

/-- bound |c * ((-0.5 + rho) * 2)| ≤ M when |c| = M and rho in [0,1). -/
theorem jitter_coord_bound (c M rho : ℝ) (hc : |c| = M) (h0 : 0 ≤ rho) (h1 : rho < 1) :
    |c * ((-0.5 + rho) * 2) + 5 - 5| ≤ M := by
  rw [add_sub_cancel_right, abs_mul, hc]
  have hM : 0 ≤ M := by rw [← hc]; exact abs_nonneg c
  have ht : |(-0.5 + rho) * 2| ≤ 1 := by
    rw [abs_le]
    constructor <;> nlinarith
  nlinarith [abs_nonneg ((-0.5 + rho) * 2)]

/-- getD of createStars is mkStar. -/
theorem createStars_getD (props : SceneProps) (r : ℕ → ℝ) (i : ℕ) (hi : i < NUM_STARS) :
    (createStars props r).getD i default = mkStar r i := by
  unfold createStars
  rw [List.getD_eq_getElem?_getD, List.getElem?_map, List.getElem?_range hi]
  rfl

/-- Claim C2 (amended): `createGeometry` ignores the configured star count
and always builds exactly 100 stars (the constant `NUM_STARS`), whatever
`numberOfStars` holds; each star's position lies in the box centred at
offset 5, i.e. `x, z ∈ [-195, 205]` and `y ∈ [-70, 80]`; and each star
emits light and owns an active (visible) point light. -/
theorem claim2_amended (props : SceneProps) (r : ℕ → ℝ)
    (hr : ∀ n, 0 ≤ r n ∧ r n < 1) (i : ℕ) (hi : i < NUM_STARS) :
    (createStars props r).length = 100 ∧
    |((createStars props r).getD i default).px - 5| ≤ 200 ∧
    |((createStars props r).getD i default).py - 5| ≤ 75 ∧
    |((createStars props r).getD i default).pz - 5| ≤ 200 ∧
    ((createStars props r).getD i default).emitsLight = true ∧
    ((createStars props r).getD i default).light.map PointLight.visible = some true := by
  have hlen : (createStars props r).length = 100 := by
    unfold createStars
    rw [List.length_map, List.length_range]
    rfl
  rw [createStars_getD props r i hi]
  have hxz : |RANGE_X_Z.getD (i % 2) 0| = 200 := by
    rcases Nat.mod_two_eq_zero_or_one i with h | h <;> rw [h] <;> norm_num [RANGE_X_Z]
  have hy : |RANGE_Y.getD (i % 2) 0| = 75 := by
    rcases Nat.mod_two_eq_zero_or_one i with h | h <;> rw [h] <;> norm_num [RANGE_Y]
  refine ⟨hlen, ?_, ?_, ?_, rfl, rfl⟩
  · exact jitter_coord_bound _ _ _ hxz (hr (3 * i)).1 (hr (3 * i)).2
  · exact jitter_coord_bound _ _ _ hy (hr (3 * i + 1)).1 (hr (3 * i + 1)).2
  · exact jitter_coord_bound _ _ _ hxz (hr (3 * i + 2)).1 (hr (3 * i + 2)).2

theorem claim2_witness :
    (createStars zeroStarsProps zeroRandom).length = 100 ∧
    |((createStars zeroStarsProps zeroRandom).getD 0 default).px - 5| ≤ 200 ∧
    |((createStars zeroStarsProps zeroRandom).getD 0 default).py - 5| ≤ 75 ∧
    |((createStars zeroStarsProps zeroRandom).getD 0 default).pz - 5| ≤ 200 ∧
    ((createStars zeroStarsProps zeroRandom).getD 0 default).emitsLight = true ∧
    ((createStars zeroStarsProps zeroRandom).getD 0 default).light.map PointLight.visible
      = some true :=
  claim2_amended zeroStarsProps zeroRandom
    (fun _ => by norm_num [zeroRandom]) 0 (by norm_num [NUM_STARS])

/-- Claim C2 counterexample: with numberOfStars = 0 the star collection still
has 100 members, and with high random draws star 1 sits at x about 204.6,
outside the configured [-200, 200] range. -/
theorem claim2_counterexample :
    (createStars zeroStarsProps highRandom).length = 100 ∧
    (createStars zeroStarsProps highRandom).length ≠ zeroStarsProps.numberOfStars ∧
    ((createStars zeroStarsProps highRandom).getD 1 default).px > 200 := by
  refine ⟨?_, ?_, ?_⟩
  · unfold createStars
    rw [List.length_map, List.length_range]
    rfl
  · unfold createStars
    rw [List.length_map, List.length_range]
    norm_num [NUM_STARS, zeroStarsProps]
  · rw [createStars_getD _ _ 1 (by norm_num [NUM_STARS])]
    show RANGE_X_Z.getD (1 % 2) 0 * ((-0.5 + highRandom 3) * 2) + 5 > 200
    norm_num [RANGE_X_Z, highRandom]

end SolarSystem


namespace SolarSystem

set_option maxHeartbeats 2000000 in
/-- Claim C6: invoking the Show Jupiter callback with `false` sets the mesh
visibility of Jupiter (index 5) and of all 5 Jupiter moons (indices 11-15,
exactly the bodies orbiting index 5) to false; a subsequent invocation with
`true` restores the scene exactly; every other body is unchanged. -/
theorem claim6_show_jupiter (r : ℕ → ℝ) (i : ℕ) (hi : i < 19) :
    showJupiterCallback true (showJupiterCallback false (solarBodies r)) = solarBodies r ∧
    ((i = JUPITER_IDX ∨ (JUPITER_MOONS_IDX ≤ i ∧ i < JUPITER_MOONS_IDX + JUPITER_NUM_MOONS)) →
      ((showJupiterCallback false (solarBodies r)).getD i default).visible = false) ∧
    (¬(i = JUPITER_IDX ∨ (JUPITER_MOONS_IDX ≤ i ∧ i < JUPITER_MOONS_IDX + JUPITER_NUM_MOONS)) →
      (showJupiterCallback false (solarBodies r)).getD i default
        = (solarBodies r).getD i default) ∧
    ((JUPITER_MOONS_IDX ≤ i ∧ i < JUPITER_MOONS_IDX + JUPITER_NUM_MOONS) →
      ((solarBodies r).getD i default).orbit.map OrbitState.orbitedIdx = some JUPITER_IDX ∧
      ((solarBodies r).getD i default).orbit.map OrbitState.isMoon = some true) := by
  refine ⟨rfl, ?_, ?_, ?_⟩
  · intro hjup
    rw [JUPITER_IDX, JUPITER_MOONS_IDX, JUPITER_NUM_MOONS] at hjup
    interval_cases i <;> first | rfl | omega
  · intro hnot
    rw [JUPITER_IDX, JUPITER_MOONS_IDX, JUPITER_NUM_MOONS] at hnot
    interval_cases i <;> first | rfl | exact absurd (by omega) hnot
  · intro hm
    rw [JUPITER_MOONS_IDX, JUPITER_NUM_MOONS] at hm
    interval_cases i <;> first | exact ⟨rfl, rfl⟩ | omega

end SolarSystem

namespace SolarSystem

theorem claim6_witness :
    showJupiterCallback true (showJupiterCallback false (solarBodies zeroRandom))
        = solarBodies zeroRandom ∧
    ((showJupiterCallback false (solarBodies zeroRandom)).getD 12 default).visible = false ∧
    ((solarBodies zeroRandom).getD 12 default).orbit.map OrbitState.orbitedIdx
        = some JUPITER_IDX :=
  ⟨(claim6_show_jupiter zeroRandom 12 (by norm_num)).1,
   (claim6_show_jupiter zeroRandom 12 (by norm_num)).2.1
     (by norm_num [JUPITER_IDX, JUPITER_MOONS_IDX, JUPITER_NUM_MOONS]),
   ((claim6_show_jupiter zeroRandom 12 (by norm_num)).2.2.2
     (by norm_num [JUPITER_MOONS_IDX, JUPITER_NUM_MOONS])).1⟩

/-- Claim C7: in a frame of the render loop, every parent body is updated
strictly before its dependent moons (parents sit at smaller indices and the
loop runs in index order), so after the frame each orbiting body's position
satisfies the circular-orbit relation against its reference body's
position OF THE SAME FRAME. -/
theorem claim7_parent_before_moon (r : ℕ → ℝ) (props : SceneProps) (i : ℕ) (o : OrbitState)
    (ho : ((solarBodies r).getD i default).orbit = some o) :
    ((frame props (solarBodies r)).getD i default).px =
        Real.cos (newAngle props o) * o.orbitRadius +
        ((frame props (solarBodies r)).getD o.orbitedIdx default).px ∧
    ((frame props (solarBodies r)).getD i default).pz =
        Real.sin (newAngle props o) * o.orbitRadius +
        ((frame props (solarBodies r)).getD o.orbitedIdx default).pz ∧
    ((frame props (solarBodies r)).getD i default).orbit
        = some { o with angle := newAngle props o } := by
  obtain ⟨h1, hlen, hp⟩ := solar_orbit_parent r i o ho
  exact frame_orbit_inv props (solarBodies r) i o h1 hlen ho hp

theorem claim7_witness :
    ((frame initialSceneProps (solarBodies zeroRandom)).getD 10 default).px =
        Real.cos (newAngle initialSceneProps c7o) * c7o.orbitRadius +
        ((frame initialSceneProps (solarBodies zeroRandom)).getD c7o.orbitedIdx default).px ∧
    ((frame initialSceneProps (solarBodies zeroRandom)).getD 10 default).pz =
        Real.sin (newAngle initialSceneProps c7o) * c7o.orbitRadius +
        ((frame initialSceneProps (solarBodies zeroRandom)).getD c7o.orbitedIdx default).pz ∧
    ((frame initialSceneProps (solarBodies zeroRandom)).getD 10 default).orbit
        = some { c7o with angle := newAngle initialSceneProps c7o } :=
  claim7_parent_before_moon zeroRandom initialSceneProps 10 c7o rfl

/-- Claim C8 (amended): one invocation of the Wireframe callback sets the
material wireframe flag of every body in `celestialBodies` (sun, planets
and moons) to the given boolean; the `stars` collection is NOT touched
(the loop iterates over `celestialBodies` only). -/
theorem map_wireframe_replicate (w : Bool) (l : List CelestialBody) :
    (l.map fun b => { b with wireframe := w }).map CelestialBody.wireframe
      = List.replicate l.length w := by
  induction l with
  | nil => rfl
  | cons b bs ih =>
    simp only [List.map_cons, List.length_cons, List.replicate_succ]
    exact congrArg (List.cons w) ih

theorem claim8_amended (w : Bool) (st : SceneState) :
    (wireframeCallback w st).celestialBodies.map CelestialBody.wireframe
        = List.replicate st.celestialBodies.length w ∧
    (wireframeCallback w st).stars = st.stars :=
  ⟨map_wireframe_replicate w st.celestialBodies, rfl⟩

/-- Claim C8 counterexample: the built scene has stars, and after invoking
the Wireframe callback with `true` the first star's material wireframe flag
is still `false` — the callback does not reach the stars, contradicting the
claim that it toggles every body in the scene. -/
theorem claim8_counterexample :
    0 < (buildScene initialSceneProps zeroRandom).stars.length ∧
    (((wireframeCallback true (buildScene initialSceneProps zeroRandom)).stars.getD 0
        default).wireframe = false) := by
  constructor
  · show 0 < (createStars initialSceneProps zeroRandom).length
    unfold createStars
    rw [List.length_map, List.length_range]
    norm_num [NUM_STARS]
  · rfl

end SolarSystem

namespace SolarSystem

theorem mercuryTime_pos : 0 < mercuryTime := by norm_num [mercuryTime]

theorem moonBaseTime_pos (i : ℕ) : 0 < moonBaseTimeAt i := by
  unfold moonBaseTimeAt
  split_ifs <;> norm_num [earthMoonTime, jupiterMoonTime, saturnMoonTime]

/-- The moon orbit jitter `Math.random() * 0.75` stays within the claimed ±0.75. -/
theorem jitter_abs (b rho : ℝ) (h0 : 0 ≤ rho) (h1 : rho < 1) :
    |b + rho * 0.75 - b| ≤ 0.75 := by
  rw [add_sub_cancel_left, abs_le]
  constructor <;> nlinarith

/-- The moon period factor `Math.random() + 0.75` stays within [0.75, 1.75). -/
theorem period_div_bounds (T m rho : ℝ) (hT : 0 < T) (hm : 0 < m)
    (h0 : 0 ≤ rho) (h1 : rho < 1) :
    T * 0.75 / m ≤ T * (rho + 0.75) / m ∧ T * (rho + 0.75) / m < T * 1.75 / m :=
  ⟨(div_le_div_iff_of_pos_right hm).mpr (by nlinarith),
   (div_lt_div_iff_of_pos_right hm).mpr (by nlinarith)⟩

theorem signal_pm (x : ℝ) :
    (if x < 0.5 then (-1 : ℝ) else 1) = -1 ∨ (if x < 0.5 then (-1 : ℝ) else 1) = 1 := by
  by_cases h : x < 0.5
  · rw [if_pos h]; left; rfl
  · rw [if_neg h]; right; rfl

/-- A moon's initial angle `2π · (±1) · Math.random()` lies in (-2π, 2π). -/
theorem angle_range (s rho : ℝ) (hs : s = -1 ∨ s = 1) (h0 : 0 ≤ rho) (h1 : rho < 1) :
    |2 * Real.pi * s * rho| < 2 * Real.pi := by
  have hpi := Real.pi_pos
  rcases hs with rfl | rfl
  · rw [abs_lt]; constructor <;> nlinarith
  · rw [abs_lt]; constructor <;> nlinarith

/-- Claim C9: for every moon in the built scene (given random draws in
[0, 1)), the orbit radius differs from the base moon distance by a jitter
within ±0.75, the stored normalised period equals the base moon period
times a factor in [0.75, 1.75) divided by the reference period, and the
initial phase angle lies in (-2π, 2π); every non-moon starts at angle 0. -/
theorem claim9_moon_randomization (r : ℕ → ℝ) (hr : ∀ n, 0 ≤ r n ∧ r n < 1)
    (i : ℕ) (o : OrbitState)
    (ho : ((solarBodies r).getD i default).orbit = some o) :
    (o.isMoon = true →
      |o.orbitRadius - moonBaseDistAt i| ≤ 0.75 ∧
      moonBaseTimeAt i * 0.75 / mercuryTime ≤ o.bodyOrbitTime ∧
      o.bodyOrbitTime < moonBaseTimeAt i * 1.75 / mercuryTime ∧
      |o.angle| < 2 * Real.pi) ∧
    (o.isMoon = false → o.angle = 0) := by
  by_cases h19 : i < 19
  · interval_cases i
    · exact absurd ho (fun h => Option.noConfusion h)
    · cases Option.some.inj ho
      exact ⟨fun h => Bool.noConfusion h, fun _ => rfl⟩
    · cases Option.some.inj ho
      exact ⟨fun h => Bool.noConfusion h, fun _ => rfl⟩
    · cases Option.some.inj ho
      exact ⟨fun h => Bool.noConfusion h, fun _ => rfl⟩
    · cases Option.some.inj ho
      exact ⟨fun h => Bool.noConfusion h, fun _ => rfl⟩
    · cases Option.some.inj ho
      exact ⟨fun h => Bool.noConfusion h, fun _ => rfl⟩
    · cases Option.some.inj ho
      exact ⟨fun h => Bool.noConfusion h, fun _ => rfl⟩
    · cases Option.some.inj ho
      exact ⟨fun h => Bool.noConfusion h, fun _ => rfl⟩
    · cases Option.some.inj ho
      exact ⟨fun h => Bool.noConfusion h, fun _ => rfl⟩
    · cases Option.some.inj ho
      exact ⟨fun h => Bool.noConfusion h, fun _ => rfl⟩
    · cases Option.some.inj ho
      refine ⟨fun _ => ⟨?_, ?_, ?_, ?_⟩, fun hm => Bool.noConfusion hm⟩
      · show |earthMoonDist - earthMoonDist| ≤ 0.75
        rw [sub_self, abs_zero]; norm_num
      · show earthMoonTime * 0.75 / mercuryTime ≤ earthMoonTime / mercuryTime
        norm_num [earthMoonTime, mercuryTime]
      · show earthMoonTime / mercuryTime < earthMoonTime * 1.75 / mercuryTime
        norm_num [earthMoonTime, mercuryTime]
      · exact angle_range _ _ (signal_pm _) (hr _).1 (hr _).2
    · cases Option.some.inj ho
      refine ⟨fun _ => ⟨?_, ?_, ?_, ?_⟩, fun hm => Bool.noConfusion hm⟩
      · exact jitter_abs _ _ (hr _).1 (hr _).2
      · exact (period_div_bounds (moonBaseTimeAt 11) mercuryTime _ (moonBaseTime_pos 11)
          mercuryTime_pos (hr _).1 (hr _).2).1
      · exact (period_div_bounds (moonBaseTimeAt 11) mercuryTime _ (moonBaseTime_pos 11)
          mercuryTime_pos (hr _).1 (hr _).2).2
      · exact angle_range _ _ (signal_pm _) (hr _).1 (hr _).2
    · cases Option.some.inj ho
      refine ⟨fun _ => ⟨?_, ?_, ?_, ?_⟩, fun hm => Bool.noConfusion hm⟩
      · exact jitter_abs _ _ (hr _).1 (hr _).2
      · exact (period_div_bounds (moonBaseTimeAt 12) mercuryTime _ (moonBaseTime_pos 12)
          mercuryTime_pos (hr _).1 (hr _).2).1
      · exact (period_div_bounds (moonBaseTimeAt 12) mercuryTime _ (moonBaseTime_pos 12)
          mercuryTime_pos (hr _).1 (hr _).2).2
      · exact angle_range _ _ (signal_pm _) (hr _).1 (hr _).2
    · cases Option.some.inj ho
      refine ⟨fun _ => ⟨?_, ?_, ?_, ?_⟩, fun hm => Bool.noConfusion hm⟩
      · exact jitter_abs _ _ (hr _).1 (hr _).2
      · exact (period_div_bounds (moonBaseTimeAt 13) mercuryTime _ (moonBaseTime_pos 13)
          mercuryTime_pos (hr _).1 (hr _).2).1
      · exact (period_div_bounds (moonBaseTimeAt 13) mercuryTime _ (moonBaseTime_pos 13)
          mercuryTime_pos (hr _).1 (hr _).2).2
      · exact angle_range _ _ (signal_pm _) (hr _).1 (hr _).2
    · cases Option.some.inj ho
      refine ⟨fun _ => ⟨?_, ?_, ?_, ?_⟩, fun hm => Bool.noConfusion hm⟩
      · exact jitter_abs _ _ (hr _).1 (hr _).2
      · exact (period_div_bounds (moonBaseTimeAt 14) mercuryTime _ (moonBaseTime_pos 14)
          mercuryTime_pos (hr _).1 (hr _).2).1
      · exact (period_div_bounds (moonBaseTimeAt 14) mercuryTime _ (moonBaseTime_pos 14)
          mercuryTime_pos (hr _).1 (hr _).2).2
      · exact angle_range _ _ (signal_pm _) (hr _).1 (hr _).2
    · cases Option.some.inj ho
      refine ⟨fun _ => ⟨?_, ?_, ?_, ?_⟩, fun hm => Bool.noConfusion hm⟩
      · exact jitter_abs _ _ (hr _).1 (hr _).2
      · exact (period_div_bounds (moonBaseTimeAt 15) mercuryTime _ (moonBaseTime_pos 15)
          mercuryTime_pos (hr _).1 (hr _).2).1
      · exact (period_div_bounds (moonBaseTimeAt 15) mercuryTime _ (moonBaseTime_pos 15)
          mercuryTime_pos (hr _).1 (hr _).2).2
      · exact angle_range _ _ (signal_pm _) (hr _).1 (hr _).2
    · cases Option.some.inj ho
      refine ⟨fun _ => ⟨?_, ?_, ?_, ?_⟩, fun hm => Bool.noConfusion hm⟩
      · exact jitter_abs _ _ (hr _).1 (hr _).2
      · exact (period_div_bounds (moonBaseTimeAt 16) mercuryTime _ (moonBaseTime_pos 16)
          mercuryTime_pos (hr _).1 (hr _).2).1
      · exact (period_div_bounds (moonBaseTimeAt 16) mercuryTime _ (moonBaseTime_pos 16)
          mercuryTime_pos (hr _).1 (hr _).2).2
      · exact angle_range _ _ (signal_pm _) (hr _).1 (hr _).2
    · cases Option.some.inj ho
      refine ⟨fun _ => ⟨?_, ?_, ?_, ?_⟩, fun hm => Bool.noConfusion hm⟩
      · exact jitter_abs _ _ (hr _).1 (hr _).2
      · exact (period_div_bounds (moonBaseTimeAt 17) mercuryTime _ (moonBaseTime_pos 17)
          mercuryTime_pos (hr _).1 (hr _).2).1
      · exact (period_div_bounds (moonBaseTimeAt 17) mercuryTime _ (moonBaseTime_pos 17)
          mercuryTime_pos (hr _).1 (hr _).2).2
      · exact angle_range _ _ (signal_pm _) (hr _).1 (hr _).2
    · cases Option.some.inj ho
      refine ⟨fun _ => ⟨?_, ?_, ?_, ?_⟩, fun hm => Bool.noConfusion hm⟩
      · exact jitter_abs _ _ (hr _).1 (hr _).2
      · exact (period_div_bounds (moonBaseTimeAt 18) mercuryTime _ (moonBaseTime_pos 18)
          mercuryTime_pos (hr _).1 (hr _).2).1
      · exact (period_div_bounds (moonBaseTimeAt 18) mercuryTime _ (moonBaseTime_pos 18)
          mercuryTime_pos (hr _).1 (hr _).2).2
      · exact angle_range _ _ (signal_pm _) (hr _).1 (hr _).2
  · have hl : (solarBodies r).length = 19 := rfl
    rw [List.getD_eq_default _ _ (by omega)] at ho
    exact absurd ho (fun h => Option.noConfusion h)

theorem claim9_witness :
    |c9o.orbitRadius - moonBaseDistAt 11| ≤ 0.75 ∧
    moonBaseTimeAt 11 * 0.75 / mercuryTime ≤ c9o.bodyOrbitTime ∧
    c9o.bodyOrbitTime < moonBaseTimeAt 11 * 1.75 / mercuryTime ∧
    |c9o.angle| < 2 * Real.pi :=
  (claim9_moon_randomization zeroRandom (fun n => by norm_num [zeroRandom]) 11 c9o rfl).1 rfl

/-- Claim C10: every `OrbitingCelestialBody` is constructed with
`emitsLight = false` and owns no point light; in the built scene only the
sun (index 0) and the stars own a point light. -/
theorem claim10_light_ownership (r : ℕ → ℝ) (props : SceneProps)
    (radius : ℝ) (color : ℕ) (orbitRadius : ℝ) (ob : CelestialBody) (oi : ℕ)
    (rt bt : ℝ) (m : Bool) (rY rS rA : ℝ) (i : ℕ) :
    (OrbitingCelestialBody.create radius color orbitRadius ob oi rt bt m rY rS rA).emitsLight
        = false ∧
    (OrbitingCelestialBody.create radius color orbitRadius ob oi rt bt m rY rS rA).light
        = none ∧
    ((solarBodies r).getD 0 default).light.isSome = true ∧
    (1 ≤ i → i < 19 → ((solarBodies r).getD i default).light = none) ∧
    (i < NUM_STARS → ((createStars props r).getD i default).light.isSome = true) := by
  refine ⟨rfl, rfl, rfl, ?_, ?_⟩
  · intro h1 h2
    interval_cases i <;> rfl
  · intro h
    rw [createStars_getD props r i h]
    rfl

theorem claim10_witness :
    (OrbitingCelestialBody.create 1 0xC5C5C5 10 sun SUN_IDX 88 88 false 0 0 0).emitsLight
        = false ∧
    (OrbitingCelestialBody.create 1 0xC5C5C5 10 sun SUN_IDX 88 88 false 0 0 0).light = none ∧
    ((solarBodies zeroRandom).getD 5 default).light = none ∧
    ((solarBodies zeroRandom).getD 0 default).light.isSome = true ∧
    ((createStars initialSceneProps zeroRandom).getD 3 default).light.isSome = true :=
  ⟨(claim10_light_ownership zeroRandom initialSceneProps 1 0xC5C5C5 10 sun SUN_IDX
      88 88 false 0 0 0 5).1,
   (claim10_light_ownership zeroRandom initialSceneProps 1 0xC5C5C5 10 sun SUN_IDX
      88 88 false 0 0 0 5).2.1,
   (claim10_light_ownership zeroRandom initialSceneProps 1 0xC5C5C5 10 sun SUN_IDX
      88 88 false 0 0 0 5).2.2.2.1 (by norm_num) (by norm_num),
   (claim10_light_ownership zeroRandom initialSceneProps 1 0xC5C5C5 10 sun SUN_IDX
      88 88 false 0 0 0 5).2.2.1,
   (claim10_light_ownership zeroRandom initialSceneProps 1 0xC5C5C5 10 sun SUN_IDX
      88 88 false 0 0 0 3).2.2.2.2 (by norm_num [NUM_STARS])⟩

end SolarSystem
